import Mathlib

/-!
Verification of the openclaw-mission-control client-side synchronization and
classification logic against its natural-language specification.

The development shallowly embeds the relevant TypeScript from
`src/frontend/src/app/boards/page.tsx`, `src/frontend/src/app/board-groups/page.tsx`
and `src/frontend/src/app/kanban/page.tsx`, together with spec-modelled parts
(the `TaskBoard` organism and the live-stream merge engine, whose sources are
not in the repository snapshot; only their tests are).
-/

namespace OpenClaw

/-! ## Data model

Item records, with the fields the embedded handlers actually read
(`id` is what the delete patch filters on). -/

/-- A board record (`BoardRead` in the generated API model). -/
structure BoardRead where
  id : String
  name : String
  deriving Repr, DecidableEq

/-- A board-group record (`BoardGroupRead` in the generated API model). -/
structure BoardGroupRead where
  id : String
  name : String
  deriving Repr, DecidableEq

/-- The payload of a successful boards list response: `data.items` and `data.total`.
`total` is a JavaScript number holding an integer, so it is embedded as `Int`. -/
structure BoardListData where
  items : List BoardRead
  total : Int
  deriving Repr, DecidableEq

/-- `listBoardsApiV1BoardsGetResponse`: the cached value for the boards list
query key, carrying the HTTP `status` and the list payload. -/
structure listBoardsApiV1BoardsGetResponse where
  status : Nat
  data : BoardListData
  deriving Repr, DecidableEq

/-- The payload of a successful board-groups list response. -/
structure BoardGroupListData where
  items : List BoardGroupRead
  total : Int
  deriving Repr, DecidableEq

/-- `listBoardGroupsApiV1BoardGroupsGetResponse`: the cached value for the
board-groups list query key. -/
structure listBoardGroupsApiV1BoardGroupsGetResponse where
  status : Nat
  data : BoardGroupListData
  deriving Repr, DecidableEq

/-! ## Query cache model

Modelled from the spec: §4.1 Query Cache contract. The query client itself
(react-query) is an external collaborator, not part of the repository sources;
its operations used by the pages — `cancelQueries`, `getQueryData`,
`setQueryData`, `invalidateQueries` — are modelled here on a single-key state.
`inFlightFetch` holds an outstanding read together with the value it would
resolve to; `stale` records that the key was invalidated (revalidation
scheduled). -/

/-- The cache state for one query key. -/
structure QueryState (α : Type) where
  cached : Option α
  inFlightFetch : Option α
  stale : Bool
  deriving Repr, DecidableEq

/-- Modelled from the spec: `cancelInFlight` / `queryClient.cancelQueries`
aborts the outstanding fetch for the key (its eventual response is ignored). -/
def cancelQueries (s : QueryState α) : QueryState α :=
  { s with inFlightFetch := none }

/-- `queryClient.getQueryData`: the last-known cached value, if any. -/
def getQueryData (s : QueryState α) : Option α :=
  s.cached

/-- `queryClient.setQueryData`: overwrite the cached value. -/
def setQueryData (value : α) (s : QueryState α) : QueryState α :=
  { s with cached := some value }

/-- Modelled from the spec: `invalidate` marks the entry stale and schedules a
re-fetch against the server. -/
def invalidateQueries (s : QueryState α) : QueryState α :=
  { s with stale := true }

/-- Resolution of the outstanding read, if one is still tracked: its value
replaces the cached one. A cancelled read is no longer tracked, so its
response is ignored. -/
def resolveInFlight (s : QueryState α) : QueryState α :=
  match s.inFlightFetch with
  | some response => { s with cached := some response, inFlightFetch := none }
  | none => s

/-! ## Boards page delete mutation (`src/frontend/src/app/boards/page.tsx`) -/

/-- `deleteMutation.onMutate` from the boards page: await
`cancelQueries(boardsKey)`, snapshot `previous = getQueryData(boardsKey)`, and
when the snapshot is a status-200 response, write back a copy with the deleted
board filtered out of `items` and `total` decremented by the number of items
actually removed, clamped at zero (`Math.max(0, total - removedCount)`).
Returns the new cache state together with the context `{ previous }`. -/
def boardsDeleteOnMutate (boardId : String)
    (s : QueryState listBoardsApiV1BoardsGetResponse) :
    QueryState listBoardsApiV1BoardsGetResponse ×
      Option listBoardsApiV1BoardsGetResponse :=
  let s1 := cancelQueries s
  let previous := getQueryData s1
  match previous with
  | some prev =>
      if prev.status = 200 then
        let nextItems := prev.data.items.filter (fun board => board.id != boardId)
        let removedCount : Nat := prev.data.items.length - nextItems.length
        (setQueryData
          { prev with
            data := { prev.data with
                      items := nextItems,
                      total := max 0 (prev.data.total - (removedCount : Int)) } }
          s1,
         previous)
      else (s1, previous)
  | none => (s1, previous)

/-- `deleteMutation.onError` from the boards page: when the context carries a
`previous` snapshot, write it back verbatim; otherwise do nothing. -/
def boardsDeleteOnError (context : Option listBoardsApiV1BoardsGetResponse)
    (s : QueryState listBoardsApiV1BoardsGetResponse) :
    QueryState listBoardsApiV1BoardsGetResponse :=
  match context with
  | some previous => setQueryData previous s
  | none => s

/-- `deleteMutation.onSettled` from the boards page: invalidate the boards key. -/
def boardsDeleteOnSettled (s : QueryState listBoardsApiV1BoardsGetResponse) :
    QueryState listBoardsApiV1BoardsGetResponse :=
  invalidateQueries s

/-- Outcome of the remote delete call. -/
inductive RemoteOutcome where
  | success
  | failure
  deriving Repr, DecidableEq

/-- The full callback lifecycle react-query runs for the boards delete
mutation: `onMutate`, then (after the asynchronous remote call, during which
the cache may change arbitrarily — `interim`) `onError` on failure, and
`onSettled` in either case. `onSuccess` only clears the dialog's local state
and performs no cache operation. -/
def runBoardsDeleteMutation (boardId : String) (outcome : RemoteOutcome)
    (interim : QueryState listBoardsApiV1BoardsGetResponse →
      QueryState listBoardsApiV1BoardsGetResponse)
    (s0 : QueryState listBoardsApiV1BoardsGetResponse) :
    QueryState listBoardsApiV1BoardsGetResponse :=
  let r := boardsDeleteOnMutate boardId s0
  let s1 := interim r.1
  match outcome with
  | .success => boardsDeleteOnSettled s1
  | .failure => boardsDeleteOnSettled (boardsDeleteOnError r.2 s1)

/-- The argument `handleDelete` passes to `deleteMutation.mutate`. -/
structure DeleteBoardCall where
  boardId : String
  deriving Repr, DecidableEq

/-- `handleDelete` from the boards page: a no-op when no delete target is set,
otherwise it calls `deleteMutation.mutate({ boardId: deleteTarget.id })`
unconditionally — it performs no pending-mutation check and has no error path. -/
def boardsHandleDelete (deleteTarget : Option BoardRead) : Option DeleteBoardCall :=
  match deleteTarget with
  | none => none
  | some target => some { boardId := target.id }

/-- The only submit path in the UI: the Delete button has
`onClick={handleDelete}` and `disabled={deleteMutation.isPending}`; a disabled
button fires no click, so while a delete is pending a press submits nothing. -/
def boardsDeleteButtonSubmit (isPending : Bool) (deleteTarget : Option BoardRead) :
    Option DeleteBoardCall :=
  if isPending then none else boardsHandleDelete deleteTarget

/-! ## Board-groups page delete mutation
(`src/frontend/src/app/board-groups/page.tsx`) -/

/-- `deleteMutation.onMutate` from the board-groups page (identical in shape to
the boards one, over the groups list response). -/
def boardGroupsDeleteOnMutate (groupId : String)
    (s : QueryState listBoardGroupsApiV1BoardGroupsGetResponse) :
    QueryState listBoardGroupsApiV1BoardGroupsGetResponse ×
      Option listBoardGroupsApiV1BoardGroupsGetResponse :=
  let s1 := cancelQueries s
  let previous := getQueryData s1
  match previous with
  | some prev =>
      if prev.status = 200 then
        let nextItems := prev.data.items.filter (fun group => group.id != groupId)
        let removedCount : Nat := prev.data.items.length - nextItems.length
        (setQueryData
          { prev with
            data := { prev.data with
                      items := nextItems,
                      total := max 0 (prev.data.total - (removedCount : Int)) } }
          s1,
         previous)
      else (s1, previous)
  | none => (s1, previous)

/-- `deleteMutation.onError` from the board-groups page. -/
def boardGroupsDeleteOnError
    (context : Option listBoardGroupsApiV1BoardGroupsGetResponse)
    (s : QueryState listBoardGroupsApiV1BoardGroupsGetResponse) :
    QueryState listBoardGroupsApiV1BoardGroupsGetResponse :=
  match context with
  | some previous => setQueryData previous s
  | none => s

/-- `deleteMutation.onSettled` from the board-groups page. -/
def boardGroupsDeleteOnSettled
    (s : QueryState listBoardGroupsApiV1BoardGroupsGetResponse) :
    QueryState listBoardGroupsApiV1BoardGroupsGetResponse :=
  invalidateQueries s

/-- The react-query callback lifecycle for the board-groups delete mutation. -/
def runBoardGroupsDeleteMutation (groupId : String) (outcome : RemoteOutcome)
    (interim : QueryState listBoardGroupsApiV1BoardGroupsGetResponse →
      QueryState listBoardGroupsApiV1BoardGroupsGetResponse)
    (s0 : QueryState listBoardGroupsApiV1BoardGroupsGetResponse) :
    QueryState listBoardGroupsApiV1BoardGroupsGetResponse :=
  let r := boardGroupsDeleteOnMutate groupId s0
  let s1 := interim r.1
  match outcome with
  | .success => boardGroupsDeleteOnSettled s1
  | .failure => boardGroupsDeleteOnSettled (boardGroupsDeleteOnError r.2 s1)

/-- The argument the board-groups `handleDelete` passes to `mutate`. -/
structure DeleteBoardGroupCall where
  groupId : String
  deriving Repr, DecidableEq

/-- `handleDelete` from the board-groups page: unconditional `mutate` when a
target is set; no pending check, no error path. -/
def boardGroupsHandleDelete (deleteTarget : Option BoardGroupRead) :
    Option DeleteBoardGroupCall :=
  match deleteTarget with
  | none => none
  | some target => some { groupId := target.id }

/-- The board-groups Delete button path (`disabled={deleteMutation.isPending}`). -/
def boardGroupsDeleteButtonSubmit (isPending : Bool)
    (deleteTarget : Option BoardGroupRead) : Option DeleteBoardGroupCall :=
  if isPending then none else boardGroupsHandleDelete deleteTarget

/-! ## Kanban page column assignment (`src/frontend/src/app/kanban/page.tsx`) -/

/-- A task as used by the kanban page's `tasksByStatus` (the fields it reads:
`status` for the bucket choice, `id` for the in-column sort). Both are
optional in the generated model. -/
structure KanbanTask where
  id : Option Nat
  status : Option String
  deriving Repr, DecidableEq

/-- `STATUSES` from the kanban page. -/
def STATUSES : List String :=
  ["backlog", "ready", "in_progress", "review", "blocked", "done"]

/-- The column a task is pushed into by `tasksByStatus`: the map is seeded
with exactly the `STATUSES` keys, so `map.get(s) ?? map.get("backlog")` sends
a task whose (defaulted) status is not one of the six to `backlog`. -/
def kanbanColumnOf (t : KanbanTask) : String :=
  let s := t.status.getD "backlog"
  if s ∈ STATUSES then s else "backlog"

/-- The sort key of the per-column stable sort:
`String(a.id ?? 0).localeCompare(String(b.id ?? 0))`, embedded as lexicographic
order on the decimal rendering of `id ?? 0`. -/
def kanbanSortKey (t : KanbanTask) : String :=
  toString (t.id.getD 0)

/-- Insertion step of the per-column stable sort. -/
def kanbanInsert (t : KanbanTask) : List KanbanTask → List KanbanTask
  | [] => [t]
  | x :: xs =>
      if kanbanSortKey t ≤ kanbanSortKey x then t :: x :: xs
      else x :: kanbanInsert t xs

/-- The per-column stable sort (`arr.sort(...)` inside `tasksByStatus`). -/
def kanbanSort : List KanbanTask → List KanbanTask
  | [] => []
  | x :: xs => kanbanInsert x (kanbanSort xs)

/-- `tasksByStatus` from the kanban page, read at one column: the tasks whose
column choice is `column`, sorted by the id sort key. -/
def tasksByStatus (filtered : List KanbanTask) (column : String) : List KanbanTask :=
  kanbanSort (filtered.filter (fun t => kanbanColumnOf t == column))

/-! ## TaskBoard triage classification and drag transition

`TaskBoard.tsx` itself is not in the repository snapshot — only its test suite
(`src/frontend/src/components/organisms/TaskBoard.test.tsx`) is. The
classification and drop behavior below is therefore modelled from the spec
(§4.4), with the shapes taken from the test file. -/

/-- The task shape from `TaskBoard.test.tsx`. -/
structure TaskBoardTask where
  id : String
  title : String
  status : String
  priority : String
  approvals_pending_count : Nat
  blocked_by_task_ids : List String
  is_blocked : Bool
  deriving Repr, DecidableEq

/-- The three triage classification outcomes; `all` is a pseudo-bucket, not a
classification outcome. -/
inductive TriageBucket where
  | blocked
  | approval_needed
  | lead_review
  deriving Repr, DecidableEq

/-- Modelled from the spec: §4.4 triage bucket assignment for the missing
`TaskBoard.tsx` — applies only within the `review` column, rules evaluated
strictly in order `blocked` (`is_blocked`), then `approval_needed`
(`approvals_pending_count > 0`), then `lead_review`, taking the first match. -/
def triageBucket (t : TaskBoardTask) : Option TriageBucket :=
  if t.status ≠ "review" then none
  else if t.is_blocked then some .blocked
  else if 0 < t.approvals_pending_count then some .approval_needed
  else some .lead_review

/-- Modelled from the spec: the `all` pseudo-bucket — the unfiltered review
column, i.e. every task in the `review` column. -/
def allBucket (tasks : List TaskBoardTask) : List TaskBoardTask :=
  tasks.filter (fun t => t.status == "review")

/-- Modelled from the spec: the tasks shown when one triage filter is selected. -/
def triageBucketTasks (tasks : List TaskBoardTask) (b : TriageBucket) :
    List TaskBoardTask :=
  tasks.filter (fun t => triageBucket t == some b)

/-- The payload carried by a drop event
(`JSON.stringify({ taskId, status })` in `TaskBoard.test.tsx`). -/
structure DropPayload where
  taskId : String
  status : String
  deriving Repr, DecidableEq

/-- A status-change mutation issued by the board: the single affected field is
`status`. -/
structure TaskStatusMutation where
  taskId : String
  status : String
  deriving Repr, DecidableEq

/-- Modelled from the spec: §4.4 drag transition for the missing
`TaskBoard.tsx` — the drop event carries the dragged task's id and source
status, the destination status comes from the drop target column; equal source
and destination is a no-op, otherwise exactly one status-change mutation with
`status = destination` is issued (`onTaskMove(taskId, destination)` in the
test). -/
def onTaskDrop (payload : DropPayload) (destination : String) :
    List TaskStatusMutation :=
  if payload.status = destination then []
  else [{ taskId := payload.taskId, status := destination }]

/-! ## Live stream merge engine

The Live Stream Merge Engine's source is not in the repository snapshot; it is
modelled from the spec (§4.3 event merge rule). -/

/-- An item carried by a stream event: `id`, `created_at`, and the remaining
collection-specific fields abstracted into `payload`. -/
structure StreamItem where
  id : String
  created_at : Int
  payload : String
  deriving Repr, DecidableEq

/-- A list query entry as the merge engine sees it: the ordered `data`
sequence (newest first) and the reported `total`. -/
structure LiveQueryEntry where
  data : List StreamItem
  total : Int
  deriving Repr, DecidableEq

/-- Modelled from the spec: insertion "at the position implied by descending
`created_at` (newest first) relative to existing entries; ties break by
arrival order (stream order wins over clock value)" — the arriving item goes
in front of the first existing entry whose `created_at` is not newer than its
own. -/
def insertByCreatedAt (item : StreamItem) : List StreamItem → List StreamItem
  | [] => [item]
  | x :: xs =>
      if x.created_at ≤ item.created_at then item :: x :: xs
      else x :: insertByCreatedAt item xs

/-- Modelled from the spec: §4.3 event merge rule — an event whose `id`
already occurs in `data` replaces that entry in place (an update, not a
duplicate) and leaves `total` alone; otherwise the item is inserted at its
descending-`created_at` position and `total` increments by 1. -/
def mergeStreamEvent (item : StreamItem) (entry : LiveQueryEntry) :
    LiveQueryEntry :=
  if entry.data.any (fun existing => existing.id == item.id) then
    { entry with
      data := entry.data.map (fun existing =>
        if existing.id = item.id then item else existing) }
  else
    { data := insertByCreatedAt item entry.data, total := entry.total + 1 }

/-! ## Concrete instances used in witnesses and counterexamples -/

/-- Example board. -/
def boardB1 : BoardRead := ⟨"b1", "Board 1"⟩

/-- Example board. -/
def boardB2 : BoardRead := ⟨"b2", "Board 2"⟩

/-- A successful boards response holding two boards. -/
def boardsResp2 : listBoardsApiV1BoardsGetResponse := ⟨200, ⟨[boardB1, boardB2], 2⟩⟩

/-- A successful boards response with drifted negative `total`. -/
def boardsRespNeg : listBoardsApiV1BoardsGetResponse := ⟨200, ⟨[], -1⟩⟩

/-- A non-200 boards response. -/
def boardsResp500 : listBoardsApiV1BoardsGetResponse := ⟨500, ⟨[], 3⟩⟩

/-- Cache state holding `boardsResp2`. -/
def boardsState2 : QueryState listBoardsApiV1BoardsGetResponse := ⟨some boardsResp2, none, false⟩

/-- Cache state holding `boardsRespNeg`. -/
def boardsStateNeg : QueryState listBoardsApiV1BoardsGetResponse := ⟨some boardsRespNeg, none, false⟩

/-- Cache state holding `boardsResp500`. -/
def boardsState500 : QueryState listBoardsApiV1BoardsGetResponse := ⟨some boardsResp500, none, false⟩

/-- Cache state with no cached boards value. -/
def boardsStateEmpty : QueryState listBoardsApiV1BoardsGetResponse := ⟨none, none, false⟩

/-- Example board group. -/
def groupG1 : BoardGroupRead := ⟨"g1", "Group 1"⟩

/-- A successful board-groups response holding one group. -/
def groupsResp1 : listBoardGroupsApiV1BoardGroupsGetResponse := ⟨200, ⟨[groupG1], 1⟩⟩

/-- A non-200 board-groups response. -/
def groupsResp500 : listBoardGroupsApiV1BoardGroupsGetResponse := ⟨500, ⟨[], 2⟩⟩

/-- Cache state holding `groupsResp1`. -/
def groupsState1 : QueryState listBoardGroupsApiV1BoardGroupsGetResponse := ⟨some groupsResp1, none, false⟩

/-- Cache state holding `groupsResp500`. -/
def groupsState500 : QueryState listBoardGroupsApiV1BoardGroupsGetResponse := ⟨some groupsResp500, none, false⟩

/-- Cache state with no cached board-groups value. -/
def groupsStateEmpty : QueryState listBoardGroupsApiV1BoardGroupsGetResponse := ⟨none, none, false⟩

/-- A review task both blocked and with two pending approvals (§8 scenario). -/
def taskBlockedApprovals : TaskBoardTask := ⟨"blocked", "Blocked Review", "review", "medium", 2, ["dep-1"], true⟩

/-- A review task with two pending approvals (test scenario, task B). -/
def taskNeedsApproval : TaskBoardTask := ⟨"approval", "Needs Approval", "review", "medium", 2, [], false⟩

/-- A plain review task (test scenario, task C). -/
def taskLeadReview : TaskBoardTask := ⟨"lead", "Lead Review", "review", "medium", 0, [], false⟩

/-- A kanban task whose status string is `"inbox"`. -/
def taskInboxStatus : KanbanTask := ⟨some 1, some "inbox"⟩

/-- A kanban task with status `"ready"`. -/
def taskReady5 : KanbanTask := ⟨some 5, some "ready"⟩

/-- A stream item. -/
def streamItemA : StreamItem := ⟨"a", 10, "A"⟩

/-- A stream item with a different id. -/
def streamItemB : StreamItem := ⟨"b", 5, "B"⟩

/-- A live query entry holding `streamItemB` with `total = 1`. -/
def liveEntryB : LiveQueryEntry := ⟨[streamItemB], 1⟩

/-! ## Helper lemmas -/

/-- Membership through the kanban insertion step. -/
lemma mem_kanbanInsert (t a : KanbanTask) (l : List KanbanTask) :
    a ∈ kanbanInsert t l ↔ a = t ∨ a ∈ l := by
  induction l with
  | nil => simp [kanbanInsert]
  | cons x xs ih =>
      simp only [kanbanInsert]
      split
      · simp [List.mem_cons]
      · simp [List.mem_cons, ih]
        tauto

/-- Membership through the kanban per-column sort. -/
lemma mem_kanbanSort (a : KanbanTask) (l : List KanbanTask) :
    a ∈ kanbanSort l ↔ a ∈ l := by
  induction l with
  | nil => simp [kanbanSort]
  | cons x xs ih => simp [kanbanSort, mem_kanbanInsert, ih]

/-- `insertByCreatedAt` is a permutation of consing the item on. -/
lemma insertByCreatedAt_perm (item : StreamItem) (l : List StreamItem) :
    List.Perm (insertByCreatedAt item l) (item :: l) := by
  induction l with
  | nil => simp [insertByCreatedAt]
  | cons x xs ih =>
      simp only [insertByCreatedAt]
      split
      · exact List.Perm.refl _
      · exact ((ih.cons x).trans (List.Perm.swap item x xs))

/-- Membership through `insertByCreatedAt`. -/
lemma mem_insertByCreatedAt (a item : StreamItem) (l : List StreamItem) :
    a ∈ insertByCreatedAt item l ↔ a = item ∨ a ∈ l := by
  rw [(insertByCreatedAt_perm item l).mem_iff]
  simp

/-- In-place replacement of the (unique) entry carrying `item.id` leaves the
entries with that id being exactly `[item]`. -/
lemma replace_filter_eq_singleton (item : StreamItem) (l : List StreamItem)
    (hnd : (l.map (fun y => y.id)).Nodup)
    (hex : ∃ x ∈ l, x.id = item.id) :
    ((l.map (fun y => if y.id = item.id then item else y)).filter
      (fun y => y.id == item.id)) = [item] := by
  induction l with
  | nil => simp at hex
  | cons x xs ih =>
      rw [List.map_cons, List.nodup_cons] at hnd
      by_cases hx : x.id = item.id
      · have hxs : ∀ y ∈ xs, y.id ≠ item.id := by
          intro y hy hcon
          exact hnd.1 (hx ▸ hcon ▸ List.mem_map_of_mem (fun z => z.id) hy)
        have htail :
            ((xs.map (fun y => if y.id = item.id then item else y)).filter
              (fun y => y.id == item.id)) = [] := by
          rw [List.filter_eq_nil_iff]
          intro a ha
          obtain ⟨y, hy, rfl⟩ := List.mem_map.mp ha
          simp [if_neg (hxs y hy), hxs y hy]
        simp [hx, htail]
      · have hex2 : ∃ y ∈ xs, y.id = item.id := by
          obtain ⟨y, hy, hyid⟩ := hex
          rcases List.mem_cons.mp hy with rfl | hmem
          · exact absurd hyid hx
          · exact ⟨y, hmem, hyid⟩
        have := ih hnd.2 hex2
        simp [hx, this]

/-! ## Claim theorems -/

/-- C1 counterexample: with a cached successful boards response whose `total`
is `-1` and whose `items` do not contain the deleted id, the optimistic patch
changes `total` to `0` — it does not leave the cached entry's total unchanged,
refuting the claim's "deleting an id not present in the cached items leaves
total unchanged" as a universal statement. -/
theorem boards_delete_total_counterexample :
    ((boardsDeleteOnMutate "x" boardsStateNeg).1.cached = some ⟨200, ⟨[], 0⟩⟩)
    ∧ boardsRespNeg.data.total = -1 ∧ (0 : Int) ≠ (-1 : Int) := by
  refine ⟨rfl, rfl, ?_⟩
  decide

/-- C1 (amended): for every delete submitted against a cached boards or
board-groups list whose cached response is successful, the optimistic patch
removes exactly the items whose id equals the deleted id (keeping the rest in
order), and sets `total` to the old total minus the number of items actually
removed, clamped at zero so it never goes below zero; in particular, when the
cached total is non-negative, deleting an id not present in the cached items
leaves `total` unchanged (a negative cached total is clamped to zero even when
nothing is removed). -/
theorem boards_delete_optimistic_patch
    (boardId groupId : String)
    (s : QueryState listBoardsApiV1BoardsGetResponse)
    (t : QueryState listBoardGroupsApiV1BoardGroupsGetResponse)
    (p : listBoardsApiV1BoardsGetResponse)
    (q : listBoardGroupsApiV1BoardGroupsGetResponse)
    (hs : s.cached = some p) (hp : p.status = 200)
    (ht : t.cached = some q) (hq : q.status = 200) :
    (∃ r, (boardsDeleteOnMutate boardId s).1.cached = some r
      ∧ r.status = p.status
      ∧ r.data.items = p.data.items.filter (fun b => b.id != boardId)
      ∧ r.data.items.Sublist p.data.items
      ∧ (∀ b ∈ p.data.items, (b ∈ r.data.items ↔ b.id ≠ boardId))
      ∧ r.data.total = max 0 (p.data.total -
          ((p.data.items.length - r.data.items.length : Nat) : Int))
      ∧ 0 ≤ r.data.total
      ∧ (boardId ∉ p.data.items.map (fun b => b.id) → 0 ≤ p.data.total →
          r.data.total = p.data.total))
    ∧ (∃ r, (boardGroupsDeleteOnMutate groupId t).1.cached = some r
      ∧ r.status = q.status
      ∧ r.data.items = q.data.items.filter (fun g => g.id != groupId)
      ∧ r.data.items.Sublist q.data.items
      ∧ (∀ g ∈ q.data.items, (g ∈ r.data.items ↔ g.id ≠ groupId))
      ∧ r.data.total = max 0 (q.data.total -
          ((q.data.items.length - r.data.items.length : Nat) : Int))
      ∧ 0 ≤ r.data.total
      ∧ (groupId ∉ q.data.items.map (fun g => g.id) → 0 ≤ q.data.total →
          r.data.total = q.data.total)) := by
  constructor
  · have hcached : (boardsDeleteOnMutate boardId s).1.cached =
        some { p with
               data := { p.data with
                         items := p.data.items.filter (fun b => b.id != boardId),
                         total := max 0 (p.data.total -
                           ((p.data.items.length -
                             (p.data.items.filter
                               (fun b => b.id != boardId)).length : Nat) : Int)) } } := by
      simp [boardsDeleteOnMutate, cancelQueries, getQueryData, setQueryData, hs, hp]
    refine ⟨_, hcached, rfl, rfl, List.filter_sublist _, ?_, rfl, le_max_left 0 _, ?_⟩
    · intro b hb
      simp [List.mem_filter, hb, bne_iff_ne]
    · intro hnot h0
      have hfil : p.data.items.filter (fun b => b.id != boardId) = p.data.items := by
        rw [List.filter_eq_self]
        intro a ha
        rw [bne_iff_ne]
        intro hcon
        exact hnot (hcon ▸ List.mem_map_of_mem (fun b => b.id) ha)
      simp only [hfil, Nat.sub_self, Nat.cast_zero, sub_zero]
      exact max_eq_right h0
  · have hcached : (boardGroupsDeleteOnMutate groupId t).1.cached =
        some { q with
               data := { q.data with
                         items := q.data.items.filter (fun g => g.id != groupId),
                         total := max 0 (q.data.total -
                           ((q.data.items.length -
                             (q.data.items.filter
                               (fun g => g.id != groupId)).length : Nat) : Int)) } } := by
      simp [boardGroupsDeleteOnMutate, cancelQueries, getQueryData, setQueryData, ht, hq]
    refine ⟨_, hcached, rfl, rfl, List.filter_sublist _, ?_, rfl, le_max_left 0 _, ?_⟩
    · intro g hg
      simp [List.mem_filter, hg, bne_iff_ne]
    · intro hnot h0
      have hfil : q.data.items.filter (fun g => g.id != groupId) = q.data.items := by
        rw [List.filter_eq_self]
        intro a ha
        rw [bne_iff_ne]
        intro hcon
        exact hnot (hcon ▸ List.mem_map_of_mem (fun g => g.id) ha)
      simp only [hfil, Nat.sub_self, Nat.cast_zero, sub_zero]
      exact max_eq_right h0

/-- C1 witness: deleting board `b1` from a cached list of two boards with
`total = 2` leaves exactly the other board and `total = 1`. -/
theorem boards_delete_optimistic_patch_witness :
    ∃ r, (boardsDeleteOnMutate "b1" boardsState2).1.cached = some r
      ∧ r.data.items = [boardB2]
      ∧ r.data.total = 1 := by
  obtain ⟨⟨r, hc, hst, hitems, hsub, hmem, htot, hpos, habs⟩, hgroups⟩ :=
    boards_delete_optimistic_patch "b1" "g1" boardsState2 groupsState1
      boardsResp2 groupsResp1 rfl rfl rfl rfl
  refine ⟨r, hc, ?_, ?_⟩
  · rw [hitems]
    decide
  · simp only [hitems] at htot
    rw [htot]
    decide

/-- A cache state with no in-flight fetch is unaffected by read resolution. -/
lemma resolveInFlight_eq_self {α : Type} (s : QueryState α)
    (h : s.inFlightFetch = none) : resolveInFlight s = s := by
  unfold resolveInFlight
  rw [h]

/-- C2: for every delete mutation whose remote call fails after an optimistic
patch was applied (the cached response existed and was status 200), the error
handler restores the cached query entry to exactly the pre-mutation snapshot
value taken at submit time — full value equality, whatever the cache holds at
failure time (`sMid`/`tMid`), with no partial rollback. -/
theorem delete_rollback_restores_snapshot
    (boardId groupId : String)
    (s sMid : QueryState listBoardsApiV1BoardsGetResponse)
    (t tMid : QueryState listBoardGroupsApiV1BoardGroupsGetResponse)
    (p : listBoardsApiV1BoardsGetResponse)
    (q : listBoardGroupsApiV1BoardGroupsGetResponse)
    (hs : s.cached = some p) (hp : p.status = 200)
    (ht : t.cached = some q) (hq : q.status = 200) :
    (boardsDeleteOnError (boardsDeleteOnMutate boardId s).2 sMid).cached = some p
    ∧ (boardGroupsDeleteOnError (boardGroupsDeleteOnMutate groupId t).2 tMid).cached
        = some q := by
  have h1 : (boardsDeleteOnMutate boardId s).2 = some p := by
    simp [boardsDeleteOnMutate, cancelQueries, getQueryData, setQueryData, hs, hp]
  have h2 : (boardGroupsDeleteOnMutate groupId t).2 = some q := by
    simp [boardGroupsDeleteOnMutate, cancelQueries, getQueryData, setQueryData, ht, hq]
  rw [h1, h2]
  exact ⟨rfl, rfl⟩

/-- C2 witness: a failing delete of board `b1` (and group `g1`) restores the
exact cached responses, even from an interim state with an empty cache. -/
theorem delete_rollback_restores_snapshot_witness :
    (boardsDeleteOnError (boardsDeleteOnMutate "b1" boardsState2).2
        boardsStateEmpty).cached = some boardsResp2
    ∧ (boardGroupsDeleteOnError (boardGroupsDeleteOnMutate "g1" groupsState1).2
        groupsStateEmpty).cached = some groupsResp1 :=
  delete_rollback_restores_snapshot "b1" "g1" boardsState2 boardsStateEmpty
    groupsState1 groupsStateEmpty boardsResp2 groupsResp1 rfl rfl rfl rfl

/-- C3: on every delete submit, the in-flight read for the target key is
cancelled before the snapshot is taken and the optimistic patch is applied:
after `onMutate` no in-flight read remains, so a stale read response resolving
afterwards leaves the state untouched; the snapshot is the pre-mutation cached
value. -/
theorem delete_cancels_in_flight_before_patch
    (boardId groupId : String)
    (s : QueryState listBoardsApiV1BoardsGetResponse)
    (t : QueryState listBoardGroupsApiV1BoardGroupsGetResponse) :
    ((boardsDeleteOnMutate boardId s).1.inFlightFetch = none
     ∧ resolveInFlight (boardsDeleteOnMutate boardId s).1 =
         (boardsDeleteOnMutate boardId s).1
     ∧ (boardsDeleteOnMutate boardId s).2 = s.cached)
    ∧ ((boardGroupsDeleteOnMutate groupId t).1.inFlightFetch = none
     ∧ resolveInFlight (boardGroupsDeleteOnMutate groupId t).1 =
         (boardGroupsDeleteOnMutate groupId t).1
     ∧ (boardGroupsDeleteOnMutate groupId t).2 = t.cached) := by
  have hb : (boardsDeleteOnMutate boardId s).1.inFlightFetch = none := by
    rcases hc : s.cached with _ | p
    · simp [boardsDeleteOnMutate, cancelQueries, getQueryData, hc]
    · by_cases hp : p.status = 200 <;>
        simp [boardsDeleteOnMutate, cancelQueries, getQueryData, setQueryData, hc, hp]
  have hbs : (boardsDeleteOnMutate boardId s).2 = s.cached := by
    rcases hc : s.cached with _ | p
    · simp [boardsDeleteOnMutate, cancelQueries, getQueryData, hc]
    · by_cases hp : p.status = 200 <;>
        simp [boardsDeleteOnMutate, cancelQueries, getQueryData, setQueryData, hc, hp]
  have hg : (boardGroupsDeleteOnMutate groupId t).1.inFlightFetch = none := by
    rcases hc : t.cached with _ | q
    · simp [boardGroupsDeleteOnMutate, cancelQueries, getQueryData, hc]
    · by_cases hq : q.status = 200 <;>
        simp [boardGroupsDeleteOnMutate, cancelQueries, getQueryData, setQueryData, hc, hq]
  have hgs : (boardGroupsDeleteOnMutate groupId t).2 = t.cached := by
    rcases hc : t.cached with _ | q
    · simp [boardGroupsDeleteOnMutate, cancelQueries, getQueryData, hc]
    · by_cases hq : q.status = 200 <;>
        simp [boardGroupsDeleteOnMutate, cancelQueries, getQueryData, setQueryData, hc, hq]
  exact ⟨⟨hb, resolveInFlight_eq_self _ hb, hbs⟩,
         ⟨hg, resolveInFlight_eq_self _ hg, hgs⟩⟩

/-- C4 counterexample: `handleDelete` issues the delete mutation
unconditionally whenever a target is set — it never consults the pending
mutation and its outcome type has no error at all, so a second submit for the
same (item id, delete) pair while the first is unresolved is applied, not
rejected with a `ConflictError`; through the disabled button it is silently
dropped, again without any error. -/
theorem handle_delete_conflict_counterexample :
    boardsHandleDelete (some boardB1) = some ⟨"b1"⟩
    ∧ boardGroupsHandleDelete (some groupG1) = some ⟨"g1"⟩
    ∧ boardsDeleteButtonSubmit true (some boardB1) = none :=
  ⟨rfl, rfl, rfl⟩

/-- C4 (amended): no `ConflictError` exists; `handleDelete` submits the delete
mutation unconditionally whenever a delete target is set, and duplicate
submits are only prevented in the UI by disabling the Delete button while the
mutation is pending — a press then submits nothing, without raising any error. -/
theorem handle_delete_pending_guard
    (b : BoardRead) (g : BoardGroupRead) (isPending : Bool) :
    boardsHandleDelete (some b) = some ⟨b.id⟩
    ∧ boardsHandleDelete none = none
    ∧ boardsDeleteButtonSubmit isPending (some b) =
        (if isPending then none else some ⟨b.id⟩)
    ∧ boardGroupsHandleDelete (some g) = some ⟨g.id⟩
    ∧ boardGroupsHandleDelete none = none
    ∧ boardGroupsDeleteButtonSubmit isPending (some g) =
        (if isPending then none else some ⟨g.id⟩) := by
  refine ⟨rfl, rfl, ?_, rfl, rfl, ?_⟩
  · cases isPending <;> rfl
  · cases isPending <;> rfl

/-- C9: for every delete mutation on the boards or board-groups list, once the
remote call settles — success or failure, and whatever happened to the cache in
the meantime — `onSettled` invalidates the target query key, scheduling
revalidation against the server; in particular after a failure and rollback
the restored entry is re-fetched. -/
theorem delete_settled_invalidates
    (boardId groupId : String) (outcome : RemoteOutcome)
    (interimB : QueryState listBoardsApiV1BoardsGetResponse →
      QueryState listBoardsApiV1BoardsGetResponse)
    (interimG : QueryState listBoardGroupsApiV1BoardGroupsGetResponse →
      QueryState listBoardGroupsApiV1BoardGroupsGetResponse)
    (s : QueryState listBoardsApiV1BoardsGetResponse)
    (t : QueryState listBoardGroupsApiV1BoardGroupsGetResponse) :
    (runBoardsDeleteMutation boardId outcome interimB s).stale = true
    ∧ (runBoardGroupsDeleteMutation groupId outcome interimG t).stale = true := by
  cases outcome <;> exact ⟨rfl, rfl⟩

/-- C10 counterexample: with a cached non-200 boards response, the submit
applies no patch, but a snapshot DOES exist — it is the non-200 response, and
a subsequent remote failure writes it back to the cache: starting from an
interim state whose cache is empty, `onError` performs a write that installs
the non-200 response, contradicting "no rollback write since no snapshot
exists". -/
theorem non200_snapshot_writeback_counterexample :
    (boardsDeleteOnMutate "x" boardsState500).2 = some boardsResp500
    ∧ (boardsDeleteOnError (boardsDeleteOnMutate "x" boardsState500).2
        boardsStateEmpty).cached = some boardsResp500
    ∧ boardsStateEmpty.cached = none
    ∧ some boardsResp500 ≠ (none : Option listBoardsApiV1BoardsGetResponse) := by
  refine ⟨rfl, rfl, rfl, ?_⟩
  decide

/-- C10 (amended): on a delete submit with no cached value, the cache is left
unchanged, the snapshot is empty, and a remote failure performs no write at
all; with a cached non-200 response, no optimistic patch is applied (the
cached entry is unchanged), but the non-200 response is captured as the
snapshot and a remote failure writes it back to the cache. -/
theorem delete_no_patch_when_not_success
    (boardId groupId : String)
    (s sMid : QueryState listBoardsApiV1BoardsGetResponse)
    (t tMid : QueryState listBoardGroupsApiV1BoardGroupsGetResponse)
    (p : listBoardsApiV1BoardsGetResponse)
    (q : listBoardGroupsApiV1BoardGroupsGetResponse) :
    (s.cached = none →
        (boardsDeleteOnMutate boardId s).1.cached = none
      ∧ (boardsDeleteOnMutate boardId s).2 = none
      ∧ boardsDeleteOnError (boardsDeleteOnMutate boardId s).2 sMid = sMid)
    ∧ (s.cached = some p → p.status ≠ 200 →
        (boardsDeleteOnMutate boardId s).1.cached = some p
      ∧ (boardsDeleteOnMutate boardId s).2 = some p
      ∧ (boardsDeleteOnError (boardsDeleteOnMutate boardId s).2 sMid).cached = some p)
    ∧ (t.cached = none →
        (boardGroupsDeleteOnMutate groupId t).1.cached = none
      ∧ (boardGroupsDeleteOnMutate groupId t).2 = none
      ∧ boardGroupsDeleteOnError (boardGroupsDeleteOnMutate groupId t).2 tMid = tMid)
    ∧ (t.cached = some q → q.status ≠ 200 →
        (boardGroupsDeleteOnMutate groupId t).1.cached = some q
      ∧ (boardGroupsDeleteOnMutate groupId t).2 = some q
      ∧ (boardGroupsDeleteOnError (boardGroupsDeleteOnMutate groupId t).2 tMid).cached
          = some q) := by
  refine ⟨?_, ?_, ?_, ?_⟩
  · intro hc
    have h2 : (boardsDeleteOnMutate boardId s).2 = none := by
      simp [boardsDeleteOnMutate, cancelQueries, getQueryData, hc]
    refine ⟨?_, h2, ?_⟩
    · simp [boardsDeleteOnMutate, cancelQueries, getQueryData, hc]
    · rw [h2]
      rfl
  · intro hc hstat
    have h2 : (boardsDeleteOnMutate boardId s).2 = some p := by
      simp [boardsDeleteOnMutate, cancelQueries, getQueryData, hc, hstat]
    refine ⟨?_, h2, ?_⟩
    · simp [boardsDeleteOnMutate, cancelQueries, getQueryData, hc, hstat]
    · rw [h2]
      rfl
  · intro hc
    have h2 : (boardGroupsDeleteOnMutate groupId t).2 = none := by
      simp [boardGroupsDeleteOnMutate, cancelQueries, getQueryData, hc]
    refine ⟨?_, h2, ?_⟩
    · simp [boardGroupsDeleteOnMutate, cancelQueries, getQueryData, hc]
    · rw [h2]
      rfl
  · intro hc hstat
    have h2 : (boardGroupsDeleteOnMutate groupId t).2 = some q := by
      simp [boardGroupsDeleteOnMutate, cancelQueries, getQueryData, hc, hstat]
    refine ⟨?_, h2, ?_⟩
    · simp [boardGroupsDeleteOnMutate, cancelQueries, getQueryData, hc, hstat]
    · rw [h2]
      rfl

/-- C10 witness: with an empty cache the submit leaves the cache empty, and
with a cached 500 response it leaves that response in place. -/
theorem delete_no_patch_when_not_success_witness :
    (boardsDeleteOnMutate "x" boardsStateEmpty).1.cached = none
    ∧ (boardsDeleteOnMutate "x" boardsState500).1.cached = some boardsResp500
    ∧ (boardGroupsDeleteOnMutate "y" groupsStateEmpty).1.cached = none
    ∧ (boardGroupsDeleteOnMutate "y" groupsState500).1.cached = some groupsResp500 := by
  refine ⟨?_, ?_, ?_, ?_⟩
  · exact ((delete_no_patch_when_not_success "x" "y" boardsStateEmpty boardsStateEmpty
      groupsStateEmpty groupsStateEmpty boardsResp500 groupsResp500).1 rfl).1
  · exact ((delete_no_patch_when_not_success "x" "y" boardsState500 boardsStateEmpty
      groupsStateEmpty groupsStateEmpty boardsResp500 groupsResp500).2.1 rfl
      (by decide)).1
  · exact ((delete_no_patch_when_not_success "x" "y" boardsStateEmpty boardsStateEmpty
      groupsStateEmpty groupsStateEmpty boardsResp500 groupsResp500).2.2.1 rfl).1
  · exact ((delete_no_patch_when_not_success "x" "y" boardsStateEmpty boardsStateEmpty
      groupsState500 groupsStateEmpty boardsResp500 groupsResp500).2.2.2 rfl
      (by decide)).1

/-- C5: within the review column, triage classification assigns exactly one
bucket, evaluating the rules in strict order `blocked`, then
`approval_needed`, then `lead_review`, taking the first match — a blocked task
classifies only as `blocked` whatever its pending-approval count — and the
`all` pseudo-bucket equals the set of all review-column tasks (which is
exactly the set of tasks receiving a classification). -/
theorem triage_bucket_precedence
    (t : TaskBoardTask) (tasks : List TaskBoardTask) :
    (t.status = "review" → (triageBucket t).isSome = true)
    ∧ (t.status ≠ "review" → triageBucket t = none)
    ∧ (t.status = "review" → t.is_blocked = true → triageBucket t = some .blocked)
    ∧ (t.status = "review" → t.is_blocked = false → 0 < t.approvals_pending_count →
        triageBucket t = some .approval_needed)
    ∧ (t.status = "review" → t.is_blocked = false → t.approvals_pending_count = 0 →
        triageBucket t = some .lead_review)
    ∧ (t ∈ allBucket tasks ↔ t ∈ tasks ∧ t.status = "review")
    ∧ (t ∈ allBucket tasks ↔ t ∈ tasks ∧ (triageBucket t).isSome = true) := by
  have hsome : t.status = "review" → (triageBucket t).isSome = true := by
    intro h
    by_cases hb : t.is_blocked <;> by_cases ha : 0 < t.approvals_pending_count <;>
      simp [triageBucket, h, hb, ha]
  have hnone : t.status ≠ "review" → triageBucket t = none := by
    intro h
    simp [triageBucket, h]
  have hall : t ∈ allBucket tasks ↔ t ∈ tasks ∧ t.status = "review" := by
    simp [allBucket, List.mem_filter]
  refine ⟨hsome, hnone, ?_, ?_, ?_, hall, ?_⟩
  · intro h hb
    simp [triageBucket, h, hb]
  · intro h hb ha
    simp [triageBucket, h, hb, ha]
  · intro h hb ha
    simp [triageBucket, h, hb, ha]
  · rw [hall]
    constructor
    · rintro ⟨hmem, hst⟩
      exact ⟨hmem, hsome hst⟩
    · rintro ⟨hmem, hs⟩
      refine ⟨hmem, ?_⟩
      by_contra hne
      rw [hnone hne] at hs
      simp at hs

/-- C5 witness: the §8 scenario — a blocked review task with two pending
approvals classifies only as `blocked`, the approval-needed and plain review
tasks get their buckets, the `all` pseudo-bucket holds all three review tasks,
and each filtered bucket holds exactly one of them. -/
theorem triage_bucket_precedence_witness :
    triageBucket taskBlockedApprovals = some .blocked
    ∧ triageBucket taskNeedsApproval = some .approval_needed
    ∧ triageBucket taskLeadReview = some .lead_review
    ∧ (allBucket [taskBlockedApprovals, taskNeedsApproval, taskLeadReview]).length = 3
    ∧ (triageBucketTasks [taskBlockedApprovals, taskNeedsApproval, taskLeadReview]
        .blocked) = [taskBlockedApprovals]
    ∧ (triageBucketTasks [taskBlockedApprovals, taskNeedsApproval, taskLeadReview]
        .approval_needed) = [taskNeedsApproval]
    ∧ (triageBucketTasks [taskBlockedApprovals, taskNeedsApproval, taskLeadReview]
        .lead_review) = [taskLeadReview] := by
  have h1 := (triage_bucket_precedence taskBlockedApprovals []).2.2.1 rfl rfl
  have h2 := (triage_bucket_precedence taskNeedsApproval []).2.2.2.1 rfl rfl (by decide)
  have h3 := (triage_bucket_precedence taskLeadReview []).2.2.2.2.1 rfl rfl rfl
  exact ⟨h1, h2, h3, by decide, by decide, by decide, by decide⟩

/-- C6 counterexample: on the kanban page (`tasksByStatus` in
`src/frontend/src/app/kanban/page.tsx`) the columns are the six `STATUSES`
`backlog, ready, in_progress, review, blocked, done` — not the four
`inbox, in_progress, review, done` — and a task whose status is `"inbox"`
(unrecognized there) is assigned the `backlog` column, not `inbox`. -/
theorem kanban_column_counterexample :
    kanbanColumnOf taskInboxStatus = "backlog"
    ∧ STATUSES = ["backlog", "ready", "in_progress", "review", "blocked", "done"]
    ∧ "inbox" ∉ STATUSES := by
  refine ⟨by decide, rfl, by decide⟩

/-- C6 (amended): on the kanban page, every task is assigned exactly one of
the six columns `backlog, ready, in_progress, review, blocked, done`, based
solely on its `status` field; a missing or unrecognized status falls back to
the `backlog` column; and `tasksByStatus` at a column holds exactly the tasks
assigned that column. -/
theorem kanban_column_partition
    (t t2 : KanbanTask) (filtered : List KanbanTask) (column : String) :
    kanbanColumnOf t ∈ STATUSES
    ∧ (t.status = t2.status → kanbanColumnOf t = kanbanColumnOf t2)
    ∧ (t.status = none → kanbanColumnOf t = "backlog")
    ∧ (∀ sv, t.status = some sv → sv ∉ STATUSES → kanbanColumnOf t = "backlog")
    ∧ (∀ sv, t.status = some sv → sv ∈ STATUSES → kanbanColumnOf t = sv)
    ∧ (t ∈ tasksByStatus filtered column ↔ t ∈ filtered ∧ kanbanColumnOf t = column) := by
  refine ⟨?_, ?_, ?_, ?_, ?_, ?_⟩
  · dsimp only [kanbanColumnOf]
    split
    · assumption
    · decide
  · intro h
    dsimp only [kanbanColumnOf]
    rw [h]
  · intro h
    dsimp only [kanbanColumnOf]
    rw [h]
    decide
  · intro sv hsv hnot
    dsimp only [kanbanColumnOf]
    rw [hsv]
    simp [hnot]
  · intro sv hsv hin
    dsimp only [kanbanColumnOf]
    rw [hsv]
    simp [hin]
  · simp [tasksByStatus, mem_kanbanSort, List.mem_filter]

/-- C6 witness: a `"ready"` task lands in the `ready` column of
`tasksByStatus`, and an `"inbox"` task lands in `backlog`. -/
theorem kanban_column_partition_witness :
    kanbanColumnOf taskReady5 = "ready"
    ∧ kanbanColumnOf taskInboxStatus = "backlog"
    ∧ taskReady5 ∈ tasksByStatus [taskInboxStatus, taskReady5] "ready" := by
  have h := kanban_column_partition taskReady5 taskReady5
    [taskInboxStatus, taskReady5] "ready"
  refine ⟨h.2.2.2.2.1 "ready" rfl (by decide), ?_, ?_⟩
  · exact (kanban_column_partition taskInboxStatus taskInboxStatus [] "x").2.2.2.1
      "inbox" rfl (by decide)
  · exact h.2.2.2.2.2.mpr ⟨by decide, h.2.2.2.2.1 "ready" rfl (by decide)⟩

/-- C7: a drop whose computed destination equals the dragged task's source
status issues zero mutations; otherwise exactly one status-change mutation is
issued, carrying the dragged task's id and `status = destination` as its only
field. -/
theorem on_task_drop_mutations (payload : DropPayload) (destination : String) :
    (payload.status = destination → onTaskDrop payload destination = [])
    ∧ (payload.status ≠ destination →
        onTaskDrop payload destination =
          [{ taskId := payload.taskId, status := destination }]
        ∧ (onTaskDrop payload destination).length = 1) := by
  constructor
  · intro h
    simp [onTaskDrop, h]
  · intro h
    simp [onTaskDrop, h]

/-- C7 witness: dragging task `t1` from `inbox` to `done` issues exactly one
mutation with `status = "done"`; dropping it back onto `inbox` issues zero. -/
theorem on_task_drop_mutations_witness :
    onTaskDrop ⟨"t1", "inbox"⟩ "done" = [⟨"t1", "done"⟩]
    ∧ onTaskDrop ⟨"t1", "inbox"⟩ "inbox" = [] :=
  ⟨((on_task_drop_mutations ⟨"t1", "inbox"⟩ "done").2 (by decide)).1,
   (on_task_drop_mutations ⟨"t1", "inbox"⟩ "inbox").1 rfl⟩

/-- C8: the stream merge is idempotent per event id — delivering the same
stream event twice leaves the entry exactly as after the first delivery (so
the second delivery updates in place, changes no positions and leaves `total`
unchanged), and when the cached ids are duplicate-free the merged entry holds
a single item with the event's id. -/
theorem merge_stream_event_idempotent
    (item : StreamItem) (entry : LiveQueryEntry) :
    mergeStreamEvent item (mergeStreamEvent item entry) = mergeStreamEvent item entry
    ∧ (mergeStreamEvent item (mergeStreamEvent item entry)).total =
        (mergeStreamEvent item entry).total
    ∧ ((entry.data.map (fun y => y.id)).Nodup →
        ((mergeStreamEvent item entry).data.filter
          (fun y => y.id == item.id)) = [item]) := by
  by_cases h : entry.data.any (fun existing => existing.id == item.id) = true
  · have hmem : ∃ x ∈ entry.data, x.id = item.id := by
      simpa [List.any_eq_true] using h
    have e1eq : mergeStreamEvent item entry =
        { entry with
          data := entry.data.map (fun existing =>
            if existing.id = item.id then item else existing) } := by
      simp [mergeStreamEvent, h]
    have h2 : (entry.data.map (fun existing =>
        if existing.id = item.id then item else existing)).any
          (fun ex => ex.id == item.id) = true := by
      rw [List.any_eq_true]
      obtain ⟨x, hx, hxid⟩ := hmem
      refine ⟨_, List.mem_map_of_mem
        (fun existing => if existing.id = item.id then item else existing) hx, ?_⟩
      simp [hxid]
    have hff : (entry.data.map (fun existing =>
        if existing.id = item.id then item else existing)).map (fun existing =>
          if existing.id = item.id then item else existing) =
        entry.data.map (fun existing =>
          if existing.id = item.id then item else existing) := by
      rw [List.map_map]
      apply List.map_congr_left
      intro a _
      by_cases hid : a.id = item.id <;> simp [Function.comp, hid]
    have hidem : mergeStreamEvent item (mergeStreamEvent item entry) =
        mergeStreamEvent item entry := by
      rw [e1eq]
      simp [mergeStreamEvent, h2, hff]
    refine ⟨hidem, by rw [hidem], ?_⟩
    intro hnd
    rw [e1eq]
    exact replace_filter_eq_singleton item entry.data hnd hmem
  · have hf : entry.data.any (fun existing => existing.id == item.id) = false := by
      simpa using h
    have hnot : ∀ x ∈ entry.data, x.id ≠ item.id := by
      intro x hx
      have := (List.any_eq_false.mp hf) x hx
      simpa using this
    have e1eq : mergeStreamEvent item entry =
        ⟨insertByCreatedAt item entry.data, entry.total + 1⟩ := by
      simp [mergeStreamEvent, hf]
    have h2 : (insertByCreatedAt item entry.data).any
        (fun ex => ex.id == item.id) = true := by
      rw [List.any_eq_true]
      exact ⟨item, (mem_insertByCreatedAt item item entry.data).mpr (Or.inl rfl),
        by simp⟩
    have hmap : (insertByCreatedAt item entry.data).map (fun existing =>
        if existing.id = item.id then item else existing) =
        insertByCreatedAt item entry.data := by
      have hpt : ∀ a ∈ insertByCreatedAt item entry.data,
          (if a.id = item.id then item else a) = a := by
        intro a ha
        rcases (mem_insertByCreatedAt a item entry.data).mp ha with rfl | hmemb
        · simp
        · simp [hnot a hmemb]
      rw [List.map_congr_left hpt]
      simp
    have hidem : mergeStreamEvent item (mergeStreamEvent item entry) =
        mergeStreamEvent item entry := by
      rw [e1eq]
      simp [mergeStreamEvent, h2, hmap]
    refine ⟨hidem, by rw [hidem], ?_⟩
    intro _
    rw [e1eq]
    have hperm : List.Perm ((insertByCreatedAt item entry.data).filter
        (fun y => y.id == item.id)) ((item :: entry.data).filter
          (fun y => y.id == item.id)) :=
      (insertByCreatedAt_perm item entry.data).filter (fun y => y.id == item.id)
    have htail : entry.data.filter (fun y => y.id == item.id) = [] := by
      rw [List.filter_eq_nil_iff]
      intro a ha
      simpa using hnot a ha
    rw [List.filter_cons, htail] at hperm
    simp only [beq_self_eq_true, if_pos] at hperm
    exact List.perm_singleton.mp hperm

/-- C8 witness: merging event `a` into an entry holding only `b` bumps `total`
to 2; re-delivering the same event changes nothing and leaves a single entry
with id `a`. -/
theorem merge_stream_event_idempotent_witness :
    mergeStreamEvent streamItemA (mergeStreamEvent streamItemA liveEntryB) =
      mergeStreamEvent streamItemA liveEntryB
    ∧ ((mergeStreamEvent streamItemA liveEntryB).data.filter
        (fun y => y.id == streamItemA.id)) = [streamItemA]
    ∧ (mergeStreamEvent streamItemA liveEntryB).total = 2 := by
  have h := merge_stream_event_idempotent streamItemA liveEntryB
  exact ⟨h.1, h.2.2 (by decide), by decide⟩

end OpenClaw
